import Mathlib

/-!
Verification development for the CustardKit python library.

The repository has two source files:
* `source/actions.py` — pure builders for keyboard action records, and the
  `LongpressAction` class;
* `my_custard.py` — a sample document built from the data model of
  `source/custard.py` and serialized to JSON.

Python dict literals are embedded as a `Json` value (an ordered association
list of fields, exactly as a python dict preserves insertion order).  Each
action builder of `actions.py` is translated field for field.  The data model
of `source/custard.py` is not among the source files; the parts of it that the
claims need are modelled from the specification and are marked
`Modelled from the spec:` in their doc comments.
-/

set_option linter.unusedVariables false

namespace CustardKit

/-- A JSON value: the result type of serialization.  Objects keep their fields
in insertion order, as python dicts do. -/
inductive Json where
  | null : Json
  | str : String → Json
  | num : Int → Json
  | arr : List Json → Json
  | obj : List (String × Json) → Json

/-- First value bound to key `k` in an ordered field list (python dict lookup). -/
def fieldLookup : List (String × Json) → String → Option Json
  | [], _ => Option.none
  | (k', v) :: rest, k => if k' = k then some v else fieldLookup rest k

/-- Look a field up in a JSON object; `none` on non-objects and absent fields. -/
def Json.lookup (j : Json) (k : String) : Option Json :=
  match j with
  | .obj fields => fieldLookup fields k
  | _ => Option.none

/-! ## `source/actions.py` — action builders

Each python builder returns a dict literal; the translation returns the same
object, field for field, in the same order.  None of the builders in the
source performs any validation or can raise. -/

/-- `action_input(text)`: `{"type": "input", "text": text}`. -/
def action_input (text : String) : Json :=
  Json.obj [("type", Json.str "input"), ("text", Json.str text)]

/-- `action_replace_last_characters(table)`: the table is a python
`dict[str, str]`, embedded as an ordered association list. -/
def action_replace_last_characters (table : List (String × String)) : Json :=
  Json.obj [("type", Json.str "replace_last_characters"),
            ("table", Json.obj (table.map (fun p => (p.1, Json.str p.2))))]

/-- `action_replace_default()`. -/
def action_replace_default : Json :=
  Json.obj [("type", Json.str "replace_default")]

/-- `action_move_tab(tab_type, text)`: note the second field is serialized
under the key `"identifier"`. -/
def action_move_tab (tab_type : String) (text : String) : Json :=
  Json.obj [("type", Json.str "move_tab"), ("tab_type", Json.str tab_type),
            ("identifier", Json.str text)]

/-- `action_move_cursor(count)`: `count` is a signed integer. -/
def action_move_cursor (count : Int) : Json :=
  Json.obj [("type", Json.str "move_cursor"), ("count", Json.num count)]

/-- `action_smart_move_cursor(direction, targets)`. -/
def action_smart_move_cursor (direction : String) (targets : List String) : Json :=
  Json.obj [("type", Json.str "smart_move_cursor"),
            ("direction", Json.str direction),
            ("targets", Json.arr (targets.map Json.str))]

/-- `action_delete(count)`: `count` is a signed integer. -/
def action_delete (count : Int) : Json :=
  Json.obj [("type", Json.str "delete"), ("count", Json.num count)]

/-- `action_smart_delete(direction, targets)`. -/
def action_smart_delete (direction : String) (targets : List String) : Json :=
  Json.obj [("type", Json.str "smart_delete"),
            ("direction", Json.str direction),
            ("targets", Json.arr (targets.map Json.str))]

/-- `action_smart_delete_default()`. -/
def action_smart_delete_default : Json :=
  Json.obj [("type", Json.str "smart_delete_default")]

/-- `action_enable_resizing_mode()`. -/
def action_enable_resizing_mode : Json :=
  Json.obj [("type", Json.str "enable_resizing_mode")]

/-- `action_toggle_cursor_bar()`. -/
def action_toggle_cursor_bar : Json :=
  Json.obj [("type", Json.str "toggle_cursor_bar")]

/-- `action_toggle_tab_bar()`. -/
def action_toggle_tab_bar : Json :=
  Json.obj [("type", Json.str "toggle_tab_bar")]

/-- `action_toggle_caps_lock_state()`. -/
def action_toggle_caps_lock_state : Json :=
  Json.obj [("type", Json.str "toggle_caps_lock_state")]

/-- `action_dismiss_keyboard()`. -/
def action_dismiss_keyboard : Json :=
  Json.obj [("type", Json.str "dismiss_keyboard")]

/-! ## `source/actions.py` — `LongpressAction` (value view)

The class holds two lists of action dicts, `start` and `repeat`, and its
`json()` method returns `{"start": self.start, "repeat": self.repeat}`.
This is the value-level view; the aliasing behaviour of the python default
arguments is modelled separately below with an explicit heap. -/

structure LongpressAction where
  start : List Json
  rep : List Json

/-- `LongpressAction.__init__(start=[], repeat=[])`: both arguments are
optional and default to the empty list.  (The python field named `repeat` is
called `rep` here because `repeat` is a Lean keyword.) -/
def LongpressAction.init (start : List Json := []) (rep : List Json := []) :
    LongpressAction :=
  ⟨start, rep⟩

/-- `LongpressAction.json()`: `{"start": self.start, "repeat": self.repeat}`. -/
def LongpressAction.json (l : LongpressAction) : Json :=
  Json.obj [("start", Json.arr l.start), ("repeat", Json.arr l.rep)]

/-! ## `source/actions.py` — `LongpressAction` (heap view)

Python lists are mutable heap objects and default argument values are
evaluated exactly once, when the `def __init__(self, start=[], repeat=[])`
statement itself executes.  To reason about the aliasing this produces, the
store of list objects is made explicit: a `PyHeap` maps addresses (list
indices) to list contents, and a `LongpressActionRef` holds the addresses
bound to `self.start` and `self.repeat`. -/

/-- The explicit store of python list objects, addressed by position. -/
structure PyHeap where
  cells : List (List Json)

/-- Read the list object at address `a` (unallocated addresses read as `[]`;
the theorems below only read allocated ones). -/
def PyHeap.read (h : PyHeap) (a : Nat) : List Json :=
  h.cells.getD a []

/-- `list.append(x)` on the list object at address `a`, in place. -/
def PyHeap.listAppend (h : PyHeap) (a : Nat) (x : Json) : PyHeap :=
  ⟨h.cells.set a (h.cells.getD a [] ++ [x])⟩

/-- Address of the single `[]` object created for the `start` default when
`def __init__` was executed at module load. -/
def longpressStartDefaultAddr : Nat := 0

/-- Address of the single `[]` object created for the `repeat` default. -/
def longpressRepeatDefaultAddr : Nat := 1

/-- The heap right after `source/actions.py` is loaded: the two default
empty-list objects of `LongpressAction.__init__` have been allocated, once. -/
def longpressDefaultsHeap : PyHeap := ⟨[[], []]⟩

/-- A `LongpressAction` instance as python sees it: references to the list
objects bound to its `start` and `repeat` attributes. -/
structure LongpressActionRef where
  startRef : Nat
  repRef : Nat

/-- `LongpressAction()` with both arguments omitted: `self.start = start`
binds the pre-existing default object — no new list is allocated. -/
def LongpressActionRef.initDefault (h : PyHeap) : LongpressActionRef × PyHeap :=
  (⟨longpressStartDefaultAddr, longpressRepeatDefaultAddr⟩, h)

/-! ## `source/custard.py` — data model

`source/custard.py` is not among the source files of this checkout; only its
caller `my_custard.py` is.  The definitions in this section are modelled from
the specification (sections 3, 4.4–4.7 and 6): tagged unions for the key and
layout variants, eager validation at `Interface` assembly, and a structural
serialization producing the JSON envelope of section 6. -/

/-- Modelled from the spec: the error taxonomy of section 7.  Each error
names the offending entity and field. -/
inductive CustardError where
  | InvalidEnumValue (value : String)
  | InvalidIdentifier (identifier : String)
  | InvalidLayoutDimensions (row_count column_count : Int)
  | KeySpecifierOutOfBounds (x y row_count column_count : Int)
  | DuplicateKeySpecifier (x y : Int)
  | DuplicateFlickDirection
  | InvalidActionArguments (message : String)
deriving DecidableEq

/-- Modelled from the spec: `Language` tokens (section 3). -/
inductive Language where
  | ja_JP
  | en_US
  | el_GR
  | no_language
deriving DecidableEq

/-- Wire token of a `Language` value. -/
def Language.token : Language → String
  | .ja_JP => "ja_JP"
  | .en_US => "en_US"
  | .el_GR => "el_GR"
  | .no_language => "none"

/-- Modelled from the spec: input styles; the sample uses `direct`. -/
inductive InputStyle where
  | direct
deriving DecidableEq

/-- Wire token of an `InputStyle` value. -/
def InputStyle.token : InputStyle → String
  | .direct => "direct"

/-- Modelled from the spec: `KeyStyle` tokens (section 3). -/
inductive KeyStyle where
  | tenkey_style
  | pc_style
deriving DecidableEq

/-- Wire token of a `KeyStyle` value. -/
def KeyStyle.token : KeyStyle → String
  | .tenkey_style => "tenkey_style"
  | .pc_style => "pc_style"

/-- Modelled from the spec: flick directions (section 3). -/
inductive FlickDirection where
  | left
  | top
  | right
  | bottom
deriving DecidableEq

/-- Wire token of a `FlickDirection` value. -/
def FlickDirection.token : FlickDirection → String
  | .left => "left"
  | .top => "top"
  | .right => "right"
  | .bottom => "bottom"

/-- Modelled from the spec: key color tokens (section 3). -/
inductive KeyColor where
  | normal
  | special
  | selected
  | unimportant
deriving DecidableEq

/-- Wire token of a `KeyColor` value. -/
def KeyColor.token : KeyColor → String
  | .normal => "normal"
  | .special => "special"
  | .selected => "selected"
  | .unimportant => "unimportant"

/-- Modelled from the spec: system key types; the sample uses
`change_keyboard` (section 4.4). -/
inductive SystemKeyType where
  | change_keyboard
deriving DecidableEq

/-- Wire token of a `SystemKeyType` value. -/
def SystemKeyType.token : SystemKeyType → String
  | .change_keyboard => "change_keyboard"

/-- Modelled from the spec: a text label for a key design. -/
structure TextLabel where
  text : String
deriving DecidableEq

/-- Serialized form of a `TextLabel`. -/
def TextLabel.json (l : TextLabel) : Json :=
  Json.obj [("text", Json.str l.text)]

/-- Modelled from the spec: design of a top-level key — label plus color. -/
structure KeyDesign where
  label : TextLabel
  color : KeyColor
deriving DecidableEq

/-- Serialized form of a `KeyDesign`. -/
def KeyDesign.json (d : KeyDesign) : Json :=
  Json.obj [("label", d.label.json), ("color", Json.str d.color.token)]

/-- Modelled from the spec: design of a variation — label only, no color
(colors apply only at the top-level key, section 3). -/
structure VariationDesign where
  label : TextLabel
deriving DecidableEq

/-- Serialized form of a `VariationDesign`. -/
def VariationDesign.json (d : VariationDesign) : Json :=
  Json.obj [("label", d.label.json)]

/-- Modelled from the spec: a variation — design override, tap actions and
long-press behaviour (section 4.3). -/
structure Variation where
  design : VariationDesign
  press_actions : List Json
  longpress_actions : LongpressAction

/-- Serialized form of a `Variation`. -/
def Variation.json (v : Variation) : Json :=
  Json.obj [("design", v.design.json),
            ("press_actions", Json.arr v.press_actions),
            ("longpress_actions", v.longpress_actions.json)]

/-- Modelled from the spec: binds a `Variation` to a `FlickDirection`
(section 3). -/
structure FlickVariationData where
  direction : FlickDirection
  key : Variation

/-- Serialized form of a `FlickVariationData` entry; the claims only depend
on the `direction` field and the nested variation under `key`. -/
def FlickVariationData.json (f : FlickVariationData) : Json :=
  Json.obj [("type", Json.str "flick_variation"),
            ("direction", Json.str f.direction.token),
            ("key", f.key.json)]

/-- Modelled from the spec: the polymorphic key — a tagged union of
`SystemKey` and `CustomKey` (section 4.4). -/
inductive Key where
  | system (key_type : SystemKeyType)
  | custom (design : KeyDesign) (press_actions : List Json)
      (longpress_actions : LongpressAction)
      (variations : List FlickVariationData)

/-- Serialized form of a `Key`: both variants share an envelope tagged by
`"type"` (section 6); the system variant carries no `variations` field. -/
def Key.json : Key → Json
  | .system t =>
      Json.obj [("type", Json.str "system"),
                ("system_key_type", Json.str t.token)]
  | .custom design press_actions longpress_actions variations =>
      Json.obj [("type", Json.str "custom"),
                ("design", design.json),
                ("press_actions", Json.arr press_actions),
                ("longpress_actions", longpress_actions.json),
                ("variations", Json.arr (variations.map FlickVariationData.json))]

/-- Modelled from the spec: a grid cell position (section 3).  Coordinates
are signed so that out-of-range negatives are representable. -/
structure GridFitSpecifier where
  x : Int
  y : Int
deriving DecidableEq

/-- Modelled from the spec: a grid layout with row and column counts
(section 4.5). -/
structure GridFitLayout where
  row_count : Int
  column_count : Int
deriving DecidableEq

/-- Serialized form of a `GridFitLayout`. -/
def GridFitLayout.json (l : GridFitLayout) : Json :=
  Json.obj [("type", Json.str "grid_fit"),
            ("row_count", Json.num l.row_count),
            ("column_count", Json.num l.column_count)]

/-- Bounds check of section 3: `0 ≤ x < column_count` and
`0 ≤ y < row_count`. -/
def GridFitSpecifier.inBounds (layout : GridFitLayout) (s : GridFitSpecifier) :
    Bool :=
  decide (0 ≤ s.x ∧ s.x < layout.column_count ∧
          0 ≤ s.y ∧ s.y < layout.row_count)

/-- Serialized form of a `GridFitSpecifier`. -/
def GridFitSpecifier.json (s : GridFitSpecifier) : Json :=
  Json.obj [("type", Json.str "grid_fit"), ("x", Json.num s.x),
            ("y", Json.num s.y)]

/-- Modelled from the spec: a (specifier, key) pair (section 3). -/
structure KeyData where
  specifier : GridFitSpecifier
  key : Key

/-- Serialized form of a `KeyData`. -/
def KeyData.json (kd : KeyData) : Json :=
  Json.obj [("specifier", kd.specifier.json), ("key", kd.key.json)]

/-- First specifier that occurs in two distinct `KeyData` entries, if any. -/
def firstDuplicateSpec : List KeyData → Option GridFitSpecifier
  | [] => Option.none
  | kd :: rest =>
      if rest.any (fun kd2 => kd2.specifier == kd.specifier) then
        some kd.specifier
      else firstDuplicateSpec rest

/-- First specifier that violates the layout bounds, if any. -/
def firstOutOfBounds (layout : GridFitLayout) :
    List KeyData → Option GridFitSpecifier
  | [] => Option.none
  | kd :: rest =>
      if kd.specifier.inBounds layout then firstOutOfBounds layout rest
      else some kd.specifier

/-- Modelled from the spec: a validated interface (section 4.6). -/
structure Interface where
  key_style : KeyStyle
  key_layout : GridFitLayout
  keys : List KeyData

/-- Modelled from the spec: the validating `Interface` constructor of
section 4.6.  Validation is eager: the collision check and the per-key bounds
check run here, before the value exists, so no serialization can be attempted
on an invalid interface.  (The spec fixes both checks but not their order;
collisions are checked first here.) -/
def Interface.make (key_style : KeyStyle) (key_layout : GridFitLayout)
    (keys : List KeyData) : Except CustardError Interface :=
  match firstDuplicateSpec keys with
  | some s => .error (.DuplicateKeySpecifier s.x s.y)
  | none =>
      match firstOutOfBounds key_layout keys with
      | some s => .error (.KeySpecifierOutOfBounds s.x s.y
          key_layout.row_count key_layout.column_count)
      | none => .ok ⟨key_style, key_layout, keys⟩

/-- Serialized form of an `Interface` (section 6). -/
def Interface.json (i : Interface) : Json :=
  Json.obj [("key_style", Json.str i.key_style.token),
            ("key_layout", i.key_layout.json),
            ("keys", Json.arr (i.keys.map KeyData.json))]

/-- Modelled from the spec: the metadata block (section 3). -/
structure Metadata where
  custard_version : String
  display_name : String
deriving DecidableEq

/-- Serialized form of a `Metadata` block. -/
def Metadata.json (m : Metadata) : Json :=
  Json.obj [("custard_version", Json.str m.custard_version),
            ("display_name", Json.str m.display_name)]

/-- Modelled from the spec: the document root (section 3). -/
structure Custard where
  identifier : String
  language : Language
  input_style : InputStyle
  metadata : Metadata
  interface : Interface

/-- Modelled from the spec: the validating `Custard` constructor of
section 4.7 — the identifier must be non-empty. -/
def Custard.make (identifier : String) (language : Language)
    (input_style : InputStyle) (metadata : Metadata) (intf : Interface) :
    Except CustardError Custard :=
  if identifier = "" then .error (.InvalidIdentifier identifier)
  else .ok ⟨identifier, language, input_style, metadata, intf⟩

/-- Serialized form of the document root (section 6). -/
def Custard.json (c : Custard) : Json :=
  Json.obj [("identifier", Json.str c.identifier),
            ("language", Json.str c.language.token),
            ("input_style", Json.str c.input_style.token),
            ("metadata", c.metadata.json),
            ("interface", c.interface.json)]

/-! ## `my_custard.py` — the sample document

The sample builds one `Custard` tree and serializes it.  `InputAction` and
`DeleteAction` are action value objects of `source/custard.py`; per the spec
(section 3) an action is a tagged record with no identity beyond its fields,
so they are embedded directly as the records the corresponding builders
produce. -/

/-- Modelled from the spec: `InputAction(text)` — the tagged `input` record. -/
def InputAction (text : String) : Json := action_input text

/-- Modelled from the spec: `DeleteAction(count)` — the tagged `delete`
record. -/
def DeleteAction (count : Int) : Json := action_delete count

/-- The `SystemKey(SystemKeyType.change_keyboard)` at `(x=0, y=0)`. -/
def keyData00 : KeyData :=
  ⟨⟨0, 0⟩, Key.system SystemKeyType.change_keyboard⟩

/-- The `CustomKey` at `(x=0, y=1)`: label `"あ"`, no press actions, a
long-press start of `DeleteAction(1)`, and one left-flick variation whose
variation inputs `"い"` (this one passes `longpress_actions=LongpressAction()`
explicitly). -/
def keyData01 : KeyData :=
  ⟨⟨0, 1⟩,
   Key.custom ⟨⟨"あ"⟩, KeyColor.normal⟩ []
     (LongpressAction.init [DeleteAction 1])
     [⟨FlickDirection.left,
       ⟨⟨⟨"い"⟩⟩, [InputAction "い"], LongpressAction.init⟩⟩]⟩

/-- The `CustomKey` at `(x=1, y=0)`: same content; the variation omits
`longpress_actions`, so it defaults to empty/empty. -/
def keyData10 : KeyData :=
  ⟨⟨1, 0⟩,
   Key.custom ⟨⟨"あ"⟩, KeyColor.normal⟩ []
     (LongpressAction.init [DeleteAction 1])
     [⟨FlickDirection.left,
       ⟨⟨⟨"い"⟩⟩, [InputAction "い"], LongpressAction.init⟩⟩]⟩

/-- The `CustomKey` at `(x=1, y=1)`: same content as `keyData10`. -/
def keyData11 : KeyData :=
  ⟨⟨1, 1⟩,
   Key.custom ⟨⟨"あ"⟩, KeyColor.normal⟩ []
     (LongpressAction.init [DeleteAction 1])
     [⟨FlickDirection.left,
       ⟨⟨⟨"い"⟩⟩, [InputAction "い"], LongpressAction.init⟩⟩]⟩

/-- The `Interface(...)` expression of `my_custard.py`: tenkey style, a
`GridFitLayout(row_count=2, column_count=2)`, and the four keys, assembled
through the validating constructor. -/
def my_interface : Except CustardError Interface :=
  Interface.make KeyStyle.tenkey_style ⟨2, 2⟩
    [keyData00, keyData01, keyData10, keyData11]

/-- The `custard` object of `my_custard.py`. -/
def custard : Except CustardError Custard :=
  my_interface.bind (fun i =>
    Custard.make "my_custard" Language.ja_JP InputStyle.direct
      ⟨"1.0", "私のカスタード"⟩ i)

/-- The serialized sample document (`Json.null` would signal a construction
failure; the scenario theorem shows the document is real). -/
def my_custard_doc : Json :=
  match custard with
  | .ok c => c.json
  | .error _ => Json.null

/-- The `interface.keys` array of the serialized sample. -/
def my_interface_keys : List Json :=
  match my_custard_doc.lookup "interface" with
  | some intf =>
      match intf.lookup "keys" with
      | some (.arr ks) => ks
      | _ => []
  | _ => []

/-- Field `field` of the `key` object of entry `i` of `interface.keys`. -/
def keyFieldAt (i : Nat) (field : String) : Option Json :=
  match my_interface_keys[i]? with
  | some kd =>
      match kd.lookup "key" with
      | some k => k.lookup field
      | _ => Option.none
  | _ => Option.none

/-- The `variations` array of the `key` object of entry `i`. -/
def variationsAt (i : Nat) : Option (List Json) :=
  match keyFieldAt i "variations" with
  | some (.arr vs) => some vs
  | _ => Option.none

/-- How many variation entries the key of entry `i` has. -/
def variationsLengthAt (i : Nat) : Option Nat :=
  (variationsAt i).map List.length

/-- The `direction` field of the first variation entry of key `i`. -/
def variationDirectionAt (i : Nat) : Option Json :=
  match variationsAt i with
  | some (v :: _) => v.lookup "direction"
  | _ => Option.none

/-- The nested `press_actions` of the first variation entry of key `i`. -/
def variationPressActionsAt (i : Nat) : Option Json :=
  match variationsAt i with
  | some (v :: _) =>
      match v.lookup "key" with
      | some vk => vk.lookup "press_actions"
      | _ => Option.none
  | _ => Option.none

/-- The fifth key of the negative scenario in section 8: a key placed at
`(0,0)`, duplicating the cell of the system key. -/
def duplicateKeyData : KeyData :=
  ⟨⟨0, 0⟩, Key.system SystemKeyType.change_keyboard⟩

end CustardKit

open CustardKit

/-! ## Claims -/

/-- C1: serializing the sample Custard tree of `my_custard.py` (a 2x2 grid
with one SystemKey at (0,0) and three CustomKeys at (0,1), (1,0), (1,1), each
with a single left-flick variation that inputs "い") succeeds and produces a
document whose `interface.keys` array has length 4, whose system key has
`key.type == "system"` and no `variations` field, and in which every custom
key has exactly one `variations` entry with `direction == "left"` whose
nested `press_actions` is `[{"type": "input", "text": "い"}]`. -/
theorem c1_sample_scenario :
    (∃ c, custard = Except.ok c) ∧
    my_interface_keys.length = 4 ∧
    keyFieldAt 0 "type" = some (Json.str "system") ∧
    keyFieldAt 0 "variations" = Option.none ∧
    (keyFieldAt 1 "type" = some (Json.str "custom") ∧
      variationsLengthAt 1 = some 1 ∧
      variationDirectionAt 1 = some (Json.str "left") ∧
      variationPressActionsAt 1 =
        some (Json.arr [Json.obj [("type", Json.str "input"),
                                  ("text", Json.str "い")]])) ∧
    (keyFieldAt 2 "type" = some (Json.str "custom") ∧
      variationsLengthAt 2 = some 1 ∧
      variationDirectionAt 2 = some (Json.str "left") ∧
      variationPressActionsAt 2 =
        some (Json.arr [Json.obj [("type", Json.str "input"),
                                  ("text", Json.str "い")]])) ∧
    (keyFieldAt 3 "type" = some (Json.str "custom") ∧
      variationsLengthAt 3 = some 1 ∧
      variationDirectionAt 3 = some (Json.str "left") ∧
      variationPressActionsAt 3 =
        some (Json.arr [Json.obj [("type", Json.str "input"),
                                  ("text", Json.str "い")]])) :=
  ⟨⟨_, rfl⟩, rfl, rfl, rfl, ⟨rfl, rfl, rfl, rfl⟩, ⟨rfl, rfl, rfl, rfl⟩,
   ⟨rfl, rfl, rfl, rfl⟩⟩

/-- C2: every action builder, at every argument tuple, returns a record whose
`"type"` field is exactly the kind name of that builder. -/
theorem c2_type_discriminator :
    (∀ text : String,
      (action_input text).lookup "type" = some (Json.str "input")) ∧
    (∀ table : List (String × String),
      (action_replace_last_characters table).lookup "type" =
        some (Json.str "replace_last_characters")) ∧
    action_replace_default.lookup "type" = some (Json.str "replace_default") ∧
    (∀ tab_type text : String,
      (action_move_tab tab_type text).lookup "type" =
        some (Json.str "move_tab")) ∧
    (∀ count : Int,
      (action_move_cursor count).lookup "type" =
        some (Json.str "move_cursor")) ∧
    (∀ (direction : String) (targets : List String),
      (action_smart_move_cursor direction targets).lookup "type" =
        some (Json.str "smart_move_cursor")) ∧
    (∀ count : Int,
      (action_delete count).lookup "type" = some (Json.str "delete")) ∧
    (∀ (direction : String) (targets : List String),
      (action_smart_delete direction targets).lookup "type" =
        some (Json.str "smart_delete")) ∧
    action_smart_delete_default.lookup "type" =
      some (Json.str "smart_delete_default") ∧
    action_enable_resizing_mode.lookup "type" =
      some (Json.str "enable_resizing_mode") ∧
    action_toggle_cursor_bar.lookup "type" =
      some (Json.str "toggle_cursor_bar") ∧
    action_toggle_tab_bar.lookup "type" = some (Json.str "toggle_tab_bar") ∧
    action_toggle_caps_lock_state.lookup "type" =
      some (Json.str "toggle_caps_lock_state") ∧
    action_dismiss_keyboard.lookup "type" =
      some (Json.str "dismiss_keyboard") :=
  ⟨fun _ => rfl, fun _ => rfl, rfl, fun _ _ => rfl, fun _ => rfl,
   fun _ _ => rfl, fun _ => rfl, fun _ _ => rfl, rfl, rfl, rfl, rfl, rfl, rfl⟩

/-- If some specifier occurs in two distinct entries of a key list, the
collision scan reports a duplicate. -/
theorem firstDuplicateSpec_isSome_of_pair (l1 l2 l3 : List KeyData)
    (k1 k2 : KeyData) (h : k1.specifier = k2.specifier) :
    ∃ s, firstDuplicateSpec (l1 ++ k1 :: (l2 ++ k2 :: l3)) = some s := by
  induction l1 with
  | nil =>
      refine ⟨k1.specifier, ?_⟩
      have hmem : k2 ∈ l2 ++ k2 :: l3 :=
        List.mem_append.mpr (Or.inr (List.mem_cons_self _ _))
      have hany : (l2 ++ k2 :: l3).any
          (fun kd2 => kd2.specifier == k1.specifier) = true :=
        List.any_eq_true.mpr ⟨k2, hmem, by simp [h]⟩
      simp [firstDuplicateSpec, hany]
  | cons k l1 ih =>
      obtain ⟨s, hs⟩ := ih
      cases hc : (l1 ++ k1 :: (l2 ++ k2 :: l3)).any
          (fun kd2 => kd2.specifier == k.specifier) with
      | true => exact ⟨k.specifier, by simp [firstDuplicateSpec, hc]⟩
      | false => exact ⟨s, by simp [firstDuplicateSpec, hc, hs]⟩

/-- C3: a `GridFitSpecifier(x, y)` placed in an interface whose layout is
`GridFitLayout(row_count=R, column_count=C)` is accepted iff
`0 ≤ x < C` and `0 ≤ y < R`; for every other pair the constructor itself —
before any serialization exists — fails with `KeySpecifierOutOfBounds`. -/
theorem c3_bounds_validation :
    ∀ (ks : KeyStyle) (R C x y : Int) (k : Key),
      Interface.make ks ⟨R, C⟩ [⟨⟨x, y⟩, k⟩] =
        (if 0 ≤ x ∧ x < C ∧ 0 ≤ y ∧ y < R
         then Except.ok ⟨ks, ⟨R, C⟩, [⟨⟨x, y⟩, k⟩]⟩
         else Except.error (CustardError.KeySpecifierOutOfBounds x y R C)) := by
  intro ks R C x y k
  by_cases h : 0 ≤ x ∧ x < C ∧ 0 ≤ y ∧ y < R
  · simp [Interface.make, firstDuplicateSpec, firstOutOfBounds,
      GridFitSpecifier.inBounds, h]
  · simp [Interface.make, firstDuplicateSpec, firstOutOfBounds,
      GridFitSpecifier.inBounds, h]

/-- C4: an `Interface` whose key list contains two entries with an identical
specifier is rejected by the constructor — hence before any serialization —
with `DuplicateKeySpecifier`, whatever the style, layout and other keys. -/
theorem c4_duplicate_specifier :
    ∀ (ks : KeyStyle) (layout : GridFitLayout) (l1 l2 l3 : List KeyData)
      (k1 k2 : KeyData), k1.specifier = k2.specifier →
      ∃ x y, Interface.make ks layout (l1 ++ k1 :: (l2 ++ k2 :: l3)) =
        Except.error (CustardError.DuplicateKeySpecifier x y) := by
  intro ks layout l1 l2 l3 k1 k2 h
  obtain ⟨s, hs⟩ := firstDuplicateSpec_isSome_of_pair l1 l2 l3 k1 k2 h
  exact ⟨s.x, s.y, by simp [Interface.make, hs]⟩

/-- C4 witness: the negative scenario of section 8 — adding a fifth key at
`(0, 0)` to the sample layout, duplicating the cell of the system key, is
rejected with `DuplicateKeySpecifier`. -/
theorem c4_duplicate_specifier_witness :
    ∃ x y, Interface.make KeyStyle.tenkey_style ⟨2, 2⟩
        [keyData00, keyData01, keyData10, keyData11, duplicateKeyData] =
      Except.error (CustardError.DuplicateKeySpecifier x y) := by
  have h := c4_duplicate_specifier KeyStyle.tenkey_style ⟨2, 2⟩ []
    [keyData01, keyData10, keyData11] [] keyData00 duplicateKeyData rfl
  simpa using h

/-- C5 counterexample: called with a direction outside {forward, backward}
and an empty targets list, both builders return an ordinary record instead of
failing — `actions.py` performs no argument validation at all. -/
theorem c5_no_validation_counterexample :
    action_smart_move_cursor "up" [] =
      Json.obj [("type", Json.str "smart_move_cursor"),
                ("direction", Json.str "up"), ("targets", Json.arr [])] ∧
    action_smart_delete "up" [] =
      Json.obj [("type", Json.str "smart_delete"),
                ("direction", Json.str "up"), ("targets", Json.arr [])] :=
  ⟨rfl, rfl⟩

/-- C5 amended: `action_smart_move_cursor` and `action_smart_delete` never
fail: for every direction string and every targets list, valid or not, they
return the record carrying `direction` and `targets` unchanged. -/
theorem c5_amended_no_validation :
    ∀ (direction : String) (targets : List String),
      (action_smart_move_cursor direction targets).lookup "direction" =
        some (Json.str direction) ∧
      (action_smart_move_cursor direction targets).lookup "targets" =
        some (Json.arr (targets.map Json.str)) ∧
      (action_smart_delete direction targets).lookup "direction" =
        some (Json.str direction) ∧
      (action_smart_delete direction targets).lookup "targets" =
        some (Json.arr (targets.map Json.str)) :=
  fun _ _ => ⟨rfl, rfl, rfl, rfl⟩

/-- C6 counterexample: `action_input` applied to the empty string silently
returns a normal action record; nothing in the builder rejects or even flags
the empty text. -/
theorem c6_empty_text_counterexample :
    action_input "" =
      Json.obj [("type", Json.str "input"), ("text", Json.str "")] :=
  rfl

/-- C6 amended: `action_input` accepts every text, the empty string included,
and returns the `input` record carrying the text unchanged. -/
theorem c6_amended_any_text :
    ∀ text : String,
      (action_input text).lookup "type" = some (Json.str "input") ∧
      (action_input text).lookup "text" = some (Json.str text) :=
  fun _ => ⟨rfl, rfl⟩

/-- C7: for every signed count, zero and negatives included, `action_delete`
and `action_move_cursor` succeed and embed the count unchanged; no count
value has an error path. -/
theorem c7_count_passthrough :
    ∀ count : Int,
      action_delete count =
        Json.obj [("type", Json.str "delete"), ("count", Json.num count)] ∧
      action_move_cursor count =
        Json.obj [("type", Json.str "move_cursor"),
                  ("count", Json.num count)] :=
  fun _ => ⟨rfl, rfl⟩

/-- C8: a `LongpressAction` constructed with no arguments has both phases
empty, and `json()` of any instance is exactly the record
`{"start": start, "repeat": repeat}`. -/
theorem c8_longpress_defaults_and_json :
    (LongpressAction.init).start = [] ∧ (LongpressAction.init).rep = [] ∧
    (∀ s r : List Json,
      (LongpressAction.init s r).json =
        Json.obj [("start", Json.arr s), ("repeat", Json.arr r)]) :=
  ⟨rfl, rfl, fun _ _ => rfl⟩

/-- C9: the default empty lists of `LongpressAction.__init__` are shared
mutable objects: two instances constructed with no arguments hold the same
`start` (and `repeat`) list reference, and an append performed through the
first instance is observable by reading through the second. -/
theorem c9_shared_mutable_defaults :
    ∀ x : Json,
      let p1 := LongpressActionRef.initDefault longpressDefaultsHeap
      let p2 := LongpressActionRef.initDefault p1.2
      (p1.1).startRef = (p2.1).startRef ∧
      (p1.1).repRef = (p2.1).repRef ∧
      PyHeap.read p2.2 (p2.1).startRef = [] ∧
      PyHeap.read (PyHeap.listAppend p2.2 (p1.1).startRef x)
        (p2.1).startRef = [x] :=
  fun _ => ⟨rfl, rfl, rfl, rfl⟩

/-- C10: every builder of `actions.py` is total over its annotated argument
types: at every argument tuple it returns its record normally — there is no
argument validation and no failure path in any of them. -/
theorem c10_builders_total :
    (∀ text : String, action_input text =
      Json.obj [("type", Json.str "input"), ("text", Json.str text)]) ∧
    (∀ table : List (String × String), action_replace_last_characters table =
      Json.obj [("type", Json.str "replace_last_characters"),
        ("table", Json.obj (table.map (fun p => (p.1, Json.str p.2))))]) ∧
    (action_replace_default =
      Json.obj [("type", Json.str "replace_default")]) ∧
    (∀ tab_type text : String, action_move_tab tab_type text =
      Json.obj [("type", Json.str "move_tab"),
        ("tab_type", Json.str tab_type), ("identifier", Json.str text)]) ∧
    (∀ count : Int, action_move_cursor count =
      Json.obj [("type", Json.str "move_cursor"),
        ("count", Json.num count)]) ∧
    (∀ (direction : String) (targets : List String),
      action_smart_move_cursor direction targets =
        Json.obj [("type", Json.str "smart_move_cursor"),
          ("direction", Json.str direction),
          ("targets", Json.arr (targets.map Json.str))]) ∧
    (∀ count : Int, action_delete count =
      Json.obj [("type", Json.str "delete"), ("count", Json.num count)]) ∧
    (∀ (direction : String) (targets : List String),
      action_smart_delete direction targets =
        Json.obj [("type", Json.str "smart_delete"),
          ("direction", Json.str direction),
          ("targets", Json.arr (targets.map Json.str))]) ∧
    (action_smart_delete_default =
      Json.obj [("type", Json.str "smart_delete_default")]) ∧
    (action_enable_resizing_mode =
      Json.obj [("type", Json.str "enable_resizing_mode")]) ∧
    (action_toggle_cursor_bar =
      Json.obj [("type", Json.str "toggle_cursor_bar")]) ∧
    (action_toggle_tab_bar =
      Json.obj [("type", Json.str "toggle_tab_bar")]) ∧
    (action_toggle_caps_lock_state =
      Json.obj [("type", Json.str "toggle_caps_lock_state")]) ∧
    (action_dismiss_keyboard =
      Json.obj [("type", Json.str "dismiss_keyboard")]) :=
  ⟨fun _ => rfl, fun _ => rfl, rfl, fun _ _ => rfl, fun _ => rfl,
   fun _ _ => rfl, fun _ => rfl, fun _ _ => rfl, rfl, rfl, rfl, rfl, rfl, rfl⟩
